import Mathlib

/-
  Verification of the purchase-creation core of the
  uthso21/inventory_management_backend repository.

  The Go code is shallowly embedded: the database is a pure state value,
  each repository call is a pure function on that state, and storage
  faults are injected through an oracle (one Option String per call,
  indexed by the position of the call in the execution of
  CreatePurchase).  A transaction is a snapshot of the state: statements
  inside the unit of work act on the snapshot, commit publishes it,
  rollback discards it, which is exactly the observable semantics of
  sql.Tx for a single request.
-/

set_option maxHeartbeats 1000000

namespace InventoryBackend

/-- entities.PurchaseItem (internal/entity, part_016).  The unit price is
a NUMERIC(10,2) pointer in Go; it is modelled as an optional scaled
integer, since the workflow only stores it and never computes with it. -/
structure PurchaseItem where
  id : Int := 0
  purchaseID : Int := 0
  productID : Int
  quantity : Int
  unitPrice : Option Int := none
  deriving Repr, DecidableEq

/-- entities.CreatePurchaseRequest (part_016): warehouse id and items. -/
structure CreatePurchaseRequest where
  warehouseID : Int
  items : List PurchaseItem
  deriving Repr, DecidableEq

/-- entities.Purchase (part_016), as returned to the caller: header
fields plus the accumulated items.  Timestamps are not modelled. -/
structure Purchase where
  id : Int
  warehouseID : Int
  createdBy : Int
  items : List PurchaseItem
  deriving Repr, DecidableEq

/-- One row of the purchases table (header only; items live in their own
table). -/
structure PurchaseRow where
  id : Int
  warehouseID : Int
  createdBy : Int
  deriving Repr, DecidableEq

/-- entities.InventoryMovement (part_016), as built by the service. -/
structure InventoryMovement where
  productID : Int
  warehouseID : Int
  movementType : String
  quantity : Int
  referenceType : String
  referenceID : Int
  createdBy : Int
  notes : String := ""
  deriving Repr, DecidableEq

/-- One row of the inventory_movements table.  reference_type,
reference_id and notes are nullable columns (migration part_000). -/
structure MovementRow where
  id : Int
  productID : Int
  warehouseID : Int
  movementType : String
  quantity : Int
  referenceType : Option String
  referenceID : Option Int
  createdBy : Int
  notes : Option String
  deriving Repr, DecidableEq

/-- One row of the products table, projected to the two columns the
purchase core reads or writes (id and stock). -/
structure Product where
  id : Int
  stock : Int
  deriving Repr, DecidableEq

/-- The persistent state: the tables touched by the purchase workflow,
plus the next value of each SERIAL id sequence. -/
structure DBState where
  warehouses : List Int
  products : List Product
  purchases : List PurchaseRow
  purchaseItems : List PurchaseItem
  movements : List MovementRow
  nextPurchaseID : Int
  nextItemID : Int
  nextMovementID : Int
  deriving Repr, DecidableEq

/-- Go error values, as far as this code distinguishes them:
the four sentinel errors of the service, an errors.New or driver error
with a bare message, a fmt.Errorf wrap with a message prefix, and the
specific wrap of ErrProductNotFound that appends the product id. -/
inductive GoErr where
  | errWarehouseNotFound : GoErr
  | errProductNotFound : GoErr
  | errInvalidQuantity : GoErr
  | errEmptyPurchaseItems : GoErr
  | base : String → GoErr
  | wrapped : String → GoErr → GoErr
  | productNotFoundWithID : Int → GoErr
  deriving Repr, DecidableEq

/-- err.Error(): the rendered message of a Go error value. -/
def errMsg : GoErr → String
  | .errWarehouseNotFound => "warehouse not found"
  | .errProductNotFound => "product not found"
  | .errInvalidQuantity => "quantity must be greater than zero"
  | .errEmptyPurchaseItems => "purchase items are required"
  | .base m => m
  | .wrapped pre e => pre ++ errMsg e
  | .productNotFoundWithID pid => "product not found: product_id=" ++ toString pid

/-- errors.Is: unwrap chain matching.  A wrapped error matches its
target or anything its inner error matches; the product-not-found wrap
unwraps to the ErrProductNotFound sentinel. -/
def errIs : GoErr → GoErr → Bool
  | .wrapped pre inner, target => GoErr.wrapped pre inner == target || errIs inner target
  | .productNotFoundWithID pid, target =>
      GoErr.productNotFoundWithID pid == target || target == GoErr.errProductNotFound
  | e, target => e == target

/-- The fault oracle: for each repository or transaction call (numbered
in execution order), either none (the call reaches the database and
behaves as specified) or some message (the storage layer fails and the
call returns an error built from that message). -/
def Fault : Type := Nat → Option String

/-- sql NullString conversion used by the movement repository: an empty
string is stored as NULL (inventory_movement_repo.go, nullableString). -/
def nullableStr (s : String) : Option String :=
  if s = "" then none else some s

/-- sql NullInt64 conversion used by the movement repository: zero is
stored as NULL (inventory_movement_repo.go, nullableInt). -/
def nullableInt (i : Int) : Option Int :=
  if i = 0 then none else some i

/-- service.ValidatePurchaseItems, inner loop: first item with a
non-positive quantity produces ErrInvalidQuantity. -/
def findInvalidQty : List PurchaseItem → Option GoErr
  | [] => none
  | item :: rest =>
      if item.quantity ≤ 0 then some GoErr.errInvalidQuantity else findInvalidQty rest

/-- service.ValidatePurchaseItems (purchase_service.go lines 48 to 58):
empty list gives ErrEmptyPurchaseItems, any non-positive quantity gives
ErrInvalidQuantity, otherwise no error. -/
def ValidatePurchaseItems (items : List PurchaseItem) : Option GoErr :=
  if items.length = 0 then some GoErr.errEmptyPurchaseItems
  else findInvalidQty items

/-- SELECT EXISTS(SELECT 1 FROM warehouses WHERE id = $1). -/
def warehouseExistsState (s : DBState) (id : Int) : Bool :=
  s.warehouses.contains id

/-- Whether a products row with the given id exists. -/
def productExistsState (s : DBState) (id : Int) : Bool :=
  s.products.any (fun p => p.id == id)

/-- warehouseRepository.ExistsByID (user_repo.go lines 205 to 213): a
pure lookup; a scan fault is wrapped with a fixed message. -/
def warehouseRepoExistsByID (fault : Option String) (s : DBState) (id : Int) :
    Except GoErr Bool :=
  match fault with
  | some m => .error (.wrapped "failed to check warehouse existence: " (.base m))
  | none => .ok (warehouseExistsState s id)

/-- Modelled from the spec: productRepository.ExistsByID is called by the
service but its implementation is not in the sources; section 4.2 of the
spec describes it as a pure lookup against current committed state
answering whether the product id exists. -/
def productRepoExistsByID (fault : Option String) (s : DBState) (id : Int) :
    Except GoErr Bool :=
  match fault with
  | some m => .error (.base m)
  | none => .ok (productExistsState s id)

/-- The row-level effect of UPDATE products SET stock = stock + delta
WHERE id = pid on the products table. -/
def incProducts (pid delta : Int) (ps : List Product) : List Product :=
  ps.map fun p => if p.id == pid then { p with stock := p.stock + delta } else p

/-- Modelled from the spec: the StockMutator update applied by
productRepository.IncrementStockWithTx, whose implementation is not in
the sources; section 4.5 of the spec requires a single atomic
new = old + delta statement executed by the storage engine, i.e.
UPDATE products SET stock = stock + delta WHERE id = pid. -/
def incrementStock (s : DBState) (pid delta : Int) : DBState :=
  { s with products := incProducts pid delta s.products }

/-- Modelled from the spec: productRepository.IncrementStockWithTx (not
in the sources), running the atomic increment inside the transaction;
on a storage fault it returns the fault. -/
def incrementStockWithTx (fault : Option String) (tx : DBState) (pid delta : Int) :
    Except GoErr DBState :=
  match fault with
  | some m => .error (.base m)
  | none => .ok (incrementStock tx pid delta)

/-- database.BeginTx (postgres.go): returns the driver error as is. -/
def beginTx (fault : Option String) : Except GoErr Unit :=
  match fault with
  | some m => .error (.base m)
  | none => .ok ()

/-- INSERT INTO purchases ... RETURNING id: appends the header row and
bumps the purchases id sequence. -/
def insertPurchaseRow (s : DBState) (wid uid : Int) : DBState :=
  { s with
    purchases := s.purchases ++ [{ id := s.nextPurchaseID, warehouseID := wid, createdBy := uid }],
    nextPurchaseID := s.nextPurchaseID + 1 }

/-- purchaseRepository.CreateWithTx (part_014 lines 26 to 44): inserts
the header, returns the generated id; a statement fault is wrapped with
a fixed message. -/
def purchaseRepoCreateWithTx (fault : Option String) (tx : DBState) (wid uid : Int) :
    Except GoErr (DBState × Int) :=
  match fault with
  | some m => .error (.wrapped "failed to create purchase: " (.base m))
  | none => .ok (insertPurchaseRow tx wid uid, tx.nextPurchaseID)

/-- purchaseRepository.CreatePurchaseItemWithTx (part_014 lines 46 to
66): inserts the item row, scans the generated id back into the item; a
statement fault is wrapped with a fixed message. -/
def createPurchaseItemWithTx (fault : Option String) (tx : DBState) (item : PurchaseItem) :
    Except GoErr (DBState × PurchaseItem) :=
  match fault with
  | some m => .error (.wrapped "failed to create purchase item: " (.base m))
  | none =>
      let row := { item with id := tx.nextItemID }
      .ok ({ tx with
              purchaseItems := tx.purchaseItems ++ [row],
              nextItemID := tx.nextItemID + 1 }, row)

/-- inventoryMovementRepository.CreateWithTx (inventory_movement_repo.go
lines 25 to 49): inserts the ledger row, applying the nullable
conversions to reference_type, reference_id and notes; a statement
fault is wrapped with a fixed message. -/
def movementRepoCreateWithTx (fault : Option String) (tx : DBState) (mv : InventoryMovement) :
    Except GoErr DBState :=
  match fault with
  | some m => .error (.wrapped "failed to create inventory movement: " (.base m))
  | none =>
      .ok { tx with
            movements := tx.movements ++
              [{ id := tx.nextMovementID,
                 productID := mv.productID,
                 warehouseID := mv.warehouseID,
                 movementType := mv.movementType,
                 quantity := mv.quantity,
                 referenceType := nullableStr mv.referenceType,
                 referenceID := nullableInt mv.referenceID,
                 createdBy := mv.createdBy,
                 notes := nullableStr mv.notes }],
            nextMovementID := tx.nextMovementID + 1 }

/-- The product-existence loop of CreatePurchase (purchase_service.go
lines 77 to 86), one oracle slot per item starting at index n: a check
fault is wrapped by the service, a missing product produces the wrap of
ErrProductNotFound that names the product id. -/
def checkProducts (fault : Fault) (s : DBState) : Nat → List PurchaseItem → Option GoErr
  | _, [] => none
  | n, item :: rest =>
      match productRepoExistsByID (fault n) s item.productID with
      | .error e => some (.wrapped "failed to check product: " e)
      | .ok b =>
          if b then checkProducts fault s (n + 1) rest
          else some (.productNotFoundWithID item.productID)

/-- The per-item body of CreatePurchase (purchase_service.go lines 107
to 147), three oracle slots per item starting at index n: create the
item row, increment the stock, append the movement row; each fault is
wrapped by the service with a step-naming message; the created rows are
accumulated in order for the response. -/
def processItems (fault : Fault) (purchID wid uid : Int) :
    Nat → DBState → List PurchaseItem → Except GoErr (DBState × List PurchaseItem)
  | _, tx, [] => .ok (tx, [])
  | n, tx, item :: rest =>
      match createPurchaseItemWithTx (fault n) tx
          { purchaseID := purchID, productID := item.productID,
            quantity := item.quantity, unitPrice := item.unitPrice } with
      | .error e => .error (.wrapped "failed to create purchase item: " e)
      | .ok (tx1, row) =>
          match incrementStockWithTx (fault (n + 1)) tx1 item.productID item.quantity with
          | .error e => .error (.wrapped "failed to increment stock: " e)
          | .ok tx2 =>
              match movementRepoCreateWithTx (fault (n + 2)) tx2
                  { productID := item.productID, warehouseID := wid,
                    movementType := "purchase", quantity := item.quantity,
                    referenceType := "purchase", referenceID := purchID,
                    createdBy := uid } with
              | .error e => .error (.wrapped "failed to create inventory movement: " e)
              | .ok tx3 =>
                  match processItems fault purchID wid uid (n + 3) tx3 rest with
                  | .error e => .error e
                  | .ok (tx4, out) => .ok (tx4, row :: out)

/-- purchaseService.CreatePurchase (purchase_service.go lines 62 to
156).  Oracle slots, in execution order: 0 the warehouse check, 1 to
items.length the product checks, 1 + length BeginTx, 2 + length the
header insert, then three per item, finally the commit.  Every error
path returns the initial state (the transaction snapshot is discarded,
which is what the rollback calls achieve); the commit publishes the
transaction state. -/
def CreatePurchase (fault : Fault) (s : DBState) (req : CreatePurchaseRequest)
    (userID : Int) : Except GoErr Purchase × DBState :=
  match ValidatePurchaseItems req.items with
  | some e => (.error e, s)
  | none =>
      match warehouseRepoExistsByID (fault 0) s req.warehouseID with
      | .error e => (.error (.wrapped "failed to check warehouse: " e), s)
      | .ok whOk =>
          if !whOk then (.error .errWarehouseNotFound, s)
          else
            match checkProducts fault s 1 req.items with
            | some e => (.error e, s)
            | none =>
                match beginTx (fault (1 + req.items.length)) with
                | .error e => (.error (.wrapped "failed to begin transaction: " e), s)
                | .ok _ =>
                    match purchaseRepoCreateWithTx (fault (2 + req.items.length)) s
                        req.warehouseID userID with
                    | .error e => (.error (.wrapped "failed to create purchase: " e), s)
                    | .ok (tx1, purchID) =>
                        match processItems fault purchID req.warehouseID userID
                            (3 + req.items.length) tx1 req.items with
                        | .error e => (.error e, s)
                        | .ok (tx2, outItems) =>
                            match fault (3 + req.items.length + 3 * req.items.length) with
                            | some m =>
                                (.error (.wrapped "failed to commit transaction: " (.base m)), s)
                            | none =>
                                (.ok { id := purchID, warehouseID := req.warehouseID,
                                       createdBy := userID, items := outItems }, tx2)

/-- The stock of the products row with the given id (read back through
the primary key). -/
def stockOf (s : DBState) (pid : Int) : Option Int :=
  (s.products.find? (fun p => p.id == pid)).map (fun p => p.stock)

/-- Sum of the quantities of the request items that reference the given
product. -/
def sumQty (items : List PurchaseItem) (pid : Int) : Int :=
  ((items.filter (fun it => it.productID == pid)).map (fun it => it.quantity)).sum

/-- The accumulated effect of the per-item loop on the products table:
one atomic increment per item, in submission order. -/
def applyItems : List PurchaseItem → List Product → List Product
  | [], ps => ps
  | it :: rest, ps => applyItems rest (incProducts it.productID it.quantity ps)

/-- The first item of the request whose product does not exist, if any
(the order the existence loop scans them). -/
def firstMissingProduct (s : DBState) (items : List PurchaseItem) : Option Int :=
  (items.find? (fun it => !productExistsState s it.productID)).map (fun it => it.productID)

/-- purchaseRepository.GetByID (part_014 lines 68 to 98) together with
GetItemsByPurchaseID: oracle slot 0 is the header scan, slot 1 the item
query.  A missing row gives the bare purchase-not-found error; other
faults are wrapped. -/
def purchaseRepoGetByID (fault : Fault) (s : DBState) (id : Int) :
    Except GoErr Purchase :=
  match fault 0 with
  | some m => .error (.wrapped "failed to get purchase: " (.base m))
  | none =>
      match s.purchases.find? (fun r => r.id == id) with
      | none => .error (.base "purchase not found")
      | some r =>
          match fault 1 with
          | some m => .error (.wrapped "failed to get purchase items: " (.base m))
          | none =>
              .ok { id := r.id, warehouseID := r.warehouseID, createdBy := r.createdBy,
                    items := s.purchaseItems.filter (fun it => it.purchaseID == id) }

/-- purchaseService.GetPurchase (purchase_service.go lines 158 to 160):
delegates to the repository. -/
def serviceGetPurchase (fault : Fault) (s : DBState) (id : Int) : Except GoErr Purchase :=
  purchaseRepoGetByID fault s id

/-- Decimal digit accumulation for the Atoi model; none when the list is
empty or holds a non-digit. -/
def digitsToNat : List Char → Option Nat
  | [] => none
  | cs => cs.foldl
      (fun acc c =>
        match acc with
        | none => none
        | some n => if c.isDigit then some (n * 10 + (c.toNat - 48)) else none)
      (some 0)

/-- strconv.Atoi, modelled over the character list: optional sign
followed by at least one digit (int64 overflow is not modelled; the ids
in the claims are small). -/
def atoi (t : String) : Option Int :=
  match t.data with
  | [] => none
  | '-' :: rest => (digitsToNat rest).map (fun n => -(n : Int))
  | '+' :: rest => (digitsToNat rest).map (fun n => (n : Int))
  | cs => (digitsToNat cs).map (fun n => (n : Int))

/-- An HTTP response: status code and body written by http.Error or the
success encoder. -/
structure HTTPResponse where
  status : Nat
  body : String
  deriving Repr, DecidableEq

/-- PurchaseHandler.GetPurchase (part_007 lines 103 to 130), after the
method check: empty id gives 400, unparsable id gives 400, any service
error gives 404 purchase not found, success gives 200 (the JSON encoding
of the purchase is not modelled; the body is its Repr rendering). -/
def handleGetPurchase (fault : Fault) (s : DBState) (idStr : String) : HTTPResponse :=
  if idStr = "" then { status := 400, body := "\x7b\"error\":\"id is required\"\x7d" }
  else
    match atoi idStr with
    | none => { status := 400, body := "\x7b\"error\":\"invalid id\"\x7d" }
    | some id =>
        match serviceGetPurchase fault s id with
        | .error _ => { status := 404, body := "\x7b\"error\":\"purchase not found\"\x7d" }
        | .ok p => { status := 200, body := toString (repr p) }

/-- err.Error()[:17] as the CreatePurchase handler computes it: a Go
string slice that panics (none) when the message is shorter than 17
bytes. -/
def sliceTo17 (t : String) : Option String :=
  if 17 ≤ t.length then some (t.take 17) else none

/-- The error switch of PurchaseHandler.CreatePurchase (part_007 lines
55 to 71): none models the runtime panic of the out-of-bounds slice in
the product-not-found case (Go evaluates the slice whenever the first
case and the sentinel comparison fail). -/
def mapCreatePurchaseErr (e : GoErr) : Option HTTPResponse :=
  if e = .errWarehouseNotFound then
    some { status := 404, body := "\x7b\"error\":\"warehouse not found\"\x7d" }
  else if e = .errProductNotFound then
    some { status := 404, body := "\x7b\"error\":\"" ++ errMsg e ++ "\"\x7d" }
  else
    match sliceTo17 (errMsg e) with
    | none => none
    | some s17 =>
        if s17 = "product not found" then
          some { status := 404, body := "\x7b\"error\":\"" ++ errMsg e ++ "\"\x7d" }
        else if e = .errInvalidQuantity then
          some { status := 400, body := "\x7b\"error\":\"quantity must be greater than zero\"\x7d" }
        else if e = .errEmptyPurchaseItems then
          some { status := 400, body := "\x7b\"error\":\"purchase items are required\"\x7d" }
        else
          some { status := 500, body := "\x7b\"error\":\"internal server error\"\x7d" }

instance : DecidableEq (Except GoErr Purchase) := fun a b =>
  match a, b with
  | .error x, .error y =>
      if h : x = y then isTrue (by rw [h]) else isFalse (fun hh => by cases hh; exact h rfl)
  | .error _, .ok _ => isFalse (fun hh => by cases hh)
  | .ok _, .error _ => isFalse (fun hh => by cases hh)
  | .ok x, .ok y =>
      if h : x = y then isTrue (by rw [h]) else isFalse (fun hh => by cases hh; exact h rfl)

/-- A concrete state for witnesses: warehouse 1 and product 5 with stock
20 exist (scenario 1 of the spec). -/
def stateA : DBState :=
  { warehouses := [1], products := [{ id := 5, stock := 20 }],
    purchases := [], purchaseItems := [], movements := [],
    nextPurchaseID := 1, nextItemID := 1, nextMovementID := 1 }

/-- A concrete valid request for witnesses: ten units of product 5 into
warehouse 1. -/
def reqA : CreatePurchaseRequest :=
  { warehouseID := 1, items := [{ productID := 5, quantity := 10 }] }

/-- The oracle under which every call reaches the database and the
database behaves as specified. -/
def noFault : Fault := fun _ => none

/-- The purchase that a fault-free run of reqA against stateA returns. -/
def purchA : Purchase :=
  { id := 1, warehouseID := 1, createdBy := 9,
    items := [{ id := 1, purchaseID := 1, productID := 5, quantity := 10, unitPrice := none }] }

/-- A request whose single item carries a negative unit price (and a
valid quantity): nothing in the workflow rejects it. -/
def reqNegPrice : CreatePurchaseRequest :=
  { warehouseID := 1, items := [{ productID := 5, quantity := 1, unitPrice := some (-5) }] }

/-- Scenario 4 of the spec: two lines, the second referencing product
42 which does not exist in stateA. -/
def reqMissingProd : CreatePurchaseRequest :=
  { warehouseID := 1,
    items := [{ productID := 5, quantity := 3 }, { productID := 42, quantity := 1 }] }

/-- An oracle that fails exactly the commit of a one-item purchase
(call index 7). -/
def faultAtCommit : Fault := fun n => if n = 7 then some "io" else none

/-- An oracle that fails exactly the header insert of a one-item
purchase (call index 3). -/
def faultAtHeader : Fault := fun n => if n = 3 then some "boom" else none

end InventoryBackend

namespace InventoryBackend

/- ------------------------------------------------------------------
   Helper lemmas
   ------------------------------------------------------------------ -/

/-- Every run of CreatePurchase either commits (ok result, some state)
or fails with the initial state unchanged: each error site returns the
pre-transaction state, which is what its rollback achieves. -/
theorem createPurchase_cases (f : Fault) (s : DBState) (req : CreatePurchaseRequest) (u : Int) :
    (∃ p s2, CreatePurchase f s req u = (.ok p, s2)) ∨
    (∃ e, CreatePurchase f s req u = (.error e, s)) := by
  unfold CreatePurchase
  repeat' split
  all_goals first
    | (left; exact ⟨_, _, rfl⟩)
    | (right; exact ⟨_, rfl⟩)

/-- Claim C1: if any step of CreatePurchase fails - a pre-check, the
header insert, an item row, a stock increment, a movement row, or the
final commit - the call returns an error and the persistent state it
leaves behind is exactly the state before the call: no purchase header,
no item rows, no stock change and no movement rows from the request are
observable. -/
theorem createPurchase_error_rolls_back (f : Fault) (s : DBState)
    (req : CreatePurchaseRequest) (u : Int) (e : GoErr)
    (h : (CreatePurchase f s req u).1 = .error e) :
    (CreatePurchase f s req u).2 = s := by
  rcases createPurchase_cases f s req u with ⟨p, s2, hc⟩ | ⟨e2, hc⟩
  · rw [hc] at h; simp at h
  · rw [hc]

/-- Witness for C1: a commit fault on a valid one-item request returns
an error and leaves the state untouched. -/
theorem createPurchase_error_rolls_back_witness :
    (CreatePurchase faultAtCommit stateA reqA 9).1 =
      .error (.wrapped "failed to commit transaction: " (.base "io")) ∧
    (CreatePurchase faultAtCommit stateA reqA 9).2 = stateA :=
  ⟨by decide, createPurchase_error_rolls_back faultAtCommit stateA reqA 9
    (.wrapped "failed to commit transaction: " (.base "io")) (by decide)⟩

/-- The item-scanning loop only ever produces the invalid-quantity
sentinel. -/
theorem findInvalidQty_eq_invalid : ∀ {its : List PurchaseItem} {e : GoErr},
    findInvalidQty its = some e → e = .errInvalidQuantity := by
  intro its
  induction its with
  | nil => intro e h; simp [findInvalidQty] at h
  | cons it rest ih =>
      intro e h
      unfold findInvalidQty at h
      by_cases hq : it.quantity ≤ 0
      · rw [if_pos hq] at h; exact (Option.some.inj h).symm
      · rw [if_neg hq] at h; exact ih h

/-- The item-scanning loop fires exactly when some item has a
non-positive quantity. -/
theorem findInvalidQty_some_iff (its : List PurchaseItem) :
    findInvalidQty its = some .errInvalidQuantity ↔ ∃ it ∈ its, it.quantity ≤ 0 := by
  induction its with
  | nil => simp [findInvalidQty]
  | cons it rest ih =>
      unfold findInvalidQty
      by_cases hq : it.quantity ≤ 0
      · simp only [if_pos hq]
        constructor
        · intro _; exact ⟨it, List.mem_cons_self it rest, hq⟩
        · intro _; trivial
      · rw [if_neg hq, ih]
        constructor
        · rintro ⟨x, hx, hxq⟩; exact ⟨x, List.mem_cons_of_mem it hx, hxq⟩
        · rintro ⟨x, hx, hxq⟩
          rcases List.mem_cons.mp hx with rfl | hx2
          · exact absurd hxq hq
          · exact ⟨x, hx2, hxq⟩

/-- When validation passes, every item quantity is positive. -/
theorem validate_none_pos {its : List PurchaseItem}
    (h : ValidatePurchaseItems its = none) : ∀ it ∈ its, 0 < it.quantity := by
  intro it hmem
  by_contra hq
  push_neg at hq
  unfold ValidatePurchaseItems at h
  have hne : its.length ≠ 0 := by
    intro h0
    rw [List.length_eq_zero] at h0; subst h0; cases hmem
  rw [if_neg hne, (findInvalidQty_some_iff its).mpr ⟨it, hmem, hq⟩] at h
  cases h

/-- Decomposition of a committed run: a successful CreatePurchase means
validation passed, the header was written with the next purchases id,
the response carries that id, the request warehouse and the caller
identity, and the per-item loop ran on the post-header transaction
state and produced both the final state and the response items. -/
theorem createPurchase_ok_shape (f : Fault) (s : DBState) (req : CreatePurchaseRequest)
    (u : Int) (p : Purchase) (h : (CreatePurchase f s req u).1 = .ok p) :
    ValidatePurchaseItems req.items = none ∧
    p.id = s.nextPurchaseID ∧ p.warehouseID = req.warehouseID ∧ p.createdBy = u ∧
    processItems f s.nextPurchaseID req.warehouseID u (3 + req.items.length)
        (insertPurchaseRow s req.warehouseID u) req.items =
      .ok ((CreatePurchase f s req u).2, p.items) := by
  rcases hcp : CreatePurchase f s req u with ⟨r, s2⟩
  rw [hcp] at h
  obtain rfl : r = .ok p := h
  unfold CreatePurchase at hcp
  split at hcp
  · cases hcp
  · split at hcp
    · cases hcp
    · split at hcp
      · cases hcp
      · split at hcp
        · cases hcp
        · split at hcp
          · cases hcp
          · split at hcp
            · cases hcp
            · split at hcp
              · cases hcp
              · split at hcp
                · cases hcp
                · rename_i tx1 purchID hheader x5 tx4 out hproc fv hcommit
                  cases hcp
                  cases hf2 : f (2 + req.items.length) with
                  | some m =>
                      rw [hf2] at hheader
                      simp [purchaseRepoCreateWithTx] at hheader
                  | none =>
                      rw [hf2] at hheader
                      simp only [purchaseRepoCreateWithTx, Except.ok.injEq,
                        Prod.mk.injEq] at hheader
                      obtain ⟨rfl, hpid⟩ := hheader
                      subst hpid
                      exact ⟨by assumption, rfl, rfl, rfl, hproc⟩

/-- Splitting the per-product quantity sum at the head of the item
list. -/
theorem sumQty_cons (it : PurchaseItem) (rest : List PurchaseItem) (pid : Int) :
    sumQty (it :: rest) pid =
      (if it.productID = pid then it.quantity else 0) + sumQty rest pid := by
  unfold sumQty
  rw [List.filter_cons]
  by_cases h : it.productID = pid <;> simp [h]

/-- Reading one product stock back through the primary key after one
atomic increment. -/
theorem findStock_incProducts (ps : List Product) (q pid d : Int) :
    ((incProducts q d ps).find? (fun p => p.id == pid)).map (fun p => p.stock) =
      (ps.find? (fun p => p.id == pid)).map
        (fun p => if pid = q then p.stock + d else p.stock) := by
  unfold incProducts
  rw [List.find?_map]
  have hpred : ((fun (p : Product) => p.id == pid) ∘
      (fun (p : Product) => if p.id == q then { p with stock := p.stock + d } else p)) =
      (fun (p : Product) => p.id == pid) := by
    funext p
    by_cases h : p.id = q <;> simp [h]
  rw [hpred]
  cases hf : ps.find? (fun p => p.id == pid) with
  | none => simp
  | some p =>
      have hp := List.find?_some hf
      have hid : p.id = pid := by simpa using hp
      by_cases hq : pid = q <;>
        simp [Option.map_some, Function.comp, hid, hq]

/-- Reading one product stock back after the whole per-item loop: the
increments accumulate to the per-product quantity sum. -/
theorem stockOf_applyItems :
    ∀ (items : List PurchaseItem) (ps : List Product) (pid : Int),
      ((applyItems items ps).find? (fun p => p.id == pid)).map (fun p => p.stock) =
        ((ps.find? (fun p => p.id == pid)).map (fun p => p.stock)).map
          (fun x => x + sumQty items pid) := by
  intro items
  induction items with
  | nil =>
      intro ps pid
      unfold applyItems
      cases hf : ps.find? (fun p => p.id == pid) <;> simp [sumQty, hf]
  | cons item rest ih =>
      intro ps pid
      rw [applyItems, ih, findStock_incProducts, sumQty_cons]
      cases hf : ps.find? (fun p => p.id == pid) with
      | none => simp
      | some p =>
          by_cases hq : pid = item.productID
          · simp [hq, Option.map_some]
            omega
          · have : ¬ item.productID = pid := fun hh => hq hh.symm
            simp [hq, this, Option.map_some]

/-- A successful per-item loop changes the products table exactly by
the per-item increments, in order. -/
theorem processItems_products (f : Fault) (purchID wid uid : Int) :
    ∀ (items : List PurchaseItem) (n : Nat) (tx tx2 : DBState) (out : List PurchaseItem),
      processItems f purchID wid uid n tx items = .ok (tx2, out) →
      tx2.products = applyItems items tx.products := by
  intro items
  induction items with
  | nil =>
      intro n tx tx2 out h
      simp only [processItems, Except.ok.injEq, Prod.mk.injEq] at h
      obtain ⟨rfl, rfl⟩ := h
      rfl
  | cons item rest ih =>
      intro n tx tx2 out h
      unfold processItems at h
      split at h
      · cases h
      · split at h
        · cases h
        · split at h
          · cases h
          · split at h
            · cases h
            · rename_i x3 tx1 row heq1 x2 txa heq2 x1 txb heq3 x0 tx4 out2 heq4
              cases h
              cases hf1 : f n with
              | some m => rw [hf1] at heq1; simp [createPurchaseItemWithTx] at heq1
              | none =>
                  rw [hf1] at heq1
                  simp only [createPurchaseItemWithTx, Except.ok.injEq, Prod.mk.injEq] at heq1
                  obtain ⟨h1a, h1b⟩ := heq1
                  subst h1a
                  cases hf2 : f (n + 1) with
                  | some m => rw [hf2] at heq2; simp [incrementStockWithTx] at heq2
                  | none =>
                      rw [hf2] at heq2
                      simp only [incrementStockWithTx, Except.ok.injEq] at heq2
                      subst heq2
                      cases hf3 : f (n + 2) with
                      | some m => rw [hf3] at heq3; simp [movementRepoCreateWithTx] at heq3
                      | none =>
                          rw [hf3] at heq3
                          simp only [movementRepoCreateWithTx, Except.ok.injEq] at heq3
                          subst heq3
                          exact ih (n + 3) _ _ _ heq4

/-- The per-product quantity sum of a request whose quantities are all
positive is non-negative. -/
theorem sumQty_nonneg (items : List PurchaseItem) (pid : Int)
    (hq : ∀ it ∈ items, 0 < it.quantity) : 0 ≤ sumQty items pid := by
  unfold sumQty
  apply List.sum_nonneg
  intro x hx
  simp only [List.mem_map, List.mem_filter] at hx
  obtain ⟨it, ⟨hmem, _⟩, rfl⟩ := hx
  exact le_of_lt (hq it hmem)

/-- Claim C2: for a valid request that commits, every product stock
read back afterwards equals the stock before plus the sum of the
quantities of the request items referencing that product; the workflow
never decrements a stock and never drives a non-negative stock
negative. -/
theorem createPurchase_stock_additivity (f : Fault) (s : DBState)
    (req : CreatePurchaseRequest) (u : Int) (p : Purchase) (pid st : Int)
    (hok : (CreatePurchase f s req u).1 = .ok p)
    (hq : ∀ it ∈ req.items, 0 < it.quantity)
    (hst : stockOf s pid = some st) :
    stockOf (CreatePurchase f s req u).2 pid = some (st + sumQty req.items pid) ∧
    st ≤ st + sumQty req.items pid ∧
    (0 ≤ st → 0 ≤ st + sumQty req.items pid) := by
  obtain ⟨hv, hid, hwid, hcb, hproc⟩ := createPurchase_ok_shape f s req u p hok
  have hprod := processItems_products f s.nextPurchaseID req.warehouseID u req.items _ _ _ _ hproc
  have hsum := sumQty_nonneg req.items pid hq
  refine ⟨?_, by omega, by omega⟩
  have hrw : stockOf (CreatePurchase f s req u).2 pid =
      ((applyItems req.items (insertPurchaseRow s req.warehouseID u).products).find?
        (fun p => p.id == pid)).map (fun p => p.stock) := by
    unfold stockOf; rw [hprod]
  rw [hrw, stockOf_applyItems]
  show ((stockOf s pid).map fun x => x + sumQty req.items pid) =
    some (st + sumQty req.items pid)
  rw [hst]
  rfl

/-- Witness for C2: scenario 1 of the spec - product 5 starts at stock
20, a committed purchase of 10 units leaves it at 30. -/
theorem createPurchase_stock_additivity_witness :
    stockOf (CreatePurchase noFault stateA reqA 9).2 5 = some (20 + sumQty reqA.items 5) ∧
    (20 : Int) ≤ 20 + sumQty reqA.items 5 ∧
    ((0 : Int) ≤ 20 → (0 : Int) ≤ 20 + sumQty reqA.items 5) :=
  createPurchase_stock_additivity noFault stateA reqA 9
    { id := 1, warehouseID := 1, createdBy := 9,
      items := [{ id := 1, purchaseID := 1, productID := 5, quantity := 10, unitPrice := none }] }
    5 20 (by decide) (by decide) (by decide)

/-- A successful item insert assigns the next item id, appends exactly
that row, and touches no other table. -/
theorem createItem_ok_fields (fv : Option String) (tx : DBState) (item : PurchaseItem)
    (tx1 : DBState) (row : PurchaseItem)
    (h : createPurchaseItemWithTx fv tx item = .ok (tx1, row)) :
    row = { item with id := tx.nextItemID } ∧
    tx1.purchaseItems = tx.purchaseItems ++ [{ item with id := tx.nextItemID }] ∧
    tx1.purchases = tx.purchases ∧ tx1.movements = tx.movements ∧
    tx1.products = tx.products := by
  cases fv with
  | some m => simp [createPurchaseItemWithTx] at h
  | none =>
      simp only [createPurchaseItemWithTx, Except.ok.injEq, Prod.mk.injEq] at h
      obtain ⟨h1, h2⟩ := h
      subst h1
      subst h2
      exact ⟨rfl, rfl, rfl, rfl, rfl⟩

/-- A successful stock increment changes only the products table, by
exactly one atomic increment. -/
theorem incrementStockWithTx_ok_fields (fv : Option String) (tx : DBState) (pid d : Int)
    (tx2 : DBState) (h : incrementStockWithTx fv tx pid d = .ok tx2) :
    tx2.products = incProducts pid d tx.products ∧
    tx2.purchaseItems = tx.purchaseItems ∧ tx2.purchases = tx.purchases ∧
    tx2.movements = tx.movements := by
  cases fv with
  | some m => simp [incrementStockWithTx] at h
  | none =>
      simp only [incrementStockWithTx, Except.ok.injEq] at h
      subst h
      exact ⟨rfl, rfl, rfl, rfl⟩

/-- A successful movement insert appends exactly one ledger row, with
the entity fields passed through the nullable conversions, and touches
no other table. -/
theorem movementRepo_ok_fields (fv : Option String) (tx : DBState)
    (mv : InventoryMovement) (tx2 : DBState)
    (h : movementRepoCreateWithTx fv tx mv = .ok tx2) :
    ∃ mvid, tx2.movements = tx.movements ++
      [{ id := mvid, productID := mv.productID, warehouseID := mv.warehouseID,
         movementType := mv.movementType, quantity := mv.quantity,
         referenceType := nullableStr mv.referenceType,
         referenceID := nullableInt mv.referenceID,
         createdBy := mv.createdBy, notes := nullableStr mv.notes }] ∧
    tx2.purchaseItems = tx.purchaseItems ∧ tx2.purchases = tx.purchases ∧
    tx2.products = tx.products := by
  cases fv with
  | some m => simp [movementRepoCreateWithTx] at h
  | none =>
      simp only [movementRepoCreateWithTx, Except.ok.injEq] at h
      subst h
      exact ⟨tx.nextMovementID, rfl, rfl, rfl, rfl⟩

/-- A successful per-item loop appends exactly the response rows to the
items table and one matching ledger row per item to the movements
table, in order, and the response rows copy the request items. -/
theorem processItems_rows (f : Fault) (purchID wid uid : Int) :
    ∀ (items : List PurchaseItem) (n : Nat) (tx tx2 : DBState) (out : List PurchaseItem),
      processItems f purchID wid uid n tx items = .ok (tx2, out) →
      tx2.purchaseItems = tx.purchaseItems ++ out ∧
      tx2.purchases = tx.purchases ∧
      (∃ movs, tx2.movements = tx.movements ++ movs ∧
        List.Forall₂ (fun (it : PurchaseItem) (mv : MovementRow) =>
          mv.movementType = "purchase" ∧ mv.productID = it.productID ∧
          mv.quantity = it.quantity ∧ mv.referenceType = some "purchase" ∧
          mv.referenceID = nullableInt purchID ∧ mv.warehouseID = wid ∧
          mv.createdBy = uid) out movs) ∧
      List.Forall₂ (fun (src row : PurchaseItem) =>
        row.purchaseID = purchID ∧ row.productID = src.productID ∧
        row.quantity = src.quantity ∧ row.unitPrice = src.unitPrice) items out := by
  intro items
  induction items with
  | nil =>
      intro n tx tx2 out h
      simp only [processItems, Except.ok.injEq, Prod.mk.injEq] at h
      obtain ⟨rfl, rfl⟩ := h
      exact ⟨by simp, rfl, ⟨[], by simp, List.Forall₂.nil⟩, List.Forall₂.nil⟩
  | cons item rest ih =>
      intro n tx tx2 out h
      unfold processItems at h
      split at h
      · cases h
      · split at h
        · cases h
        · split at h
          · cases h
          · split at h
            · cases h
            · rename_i x3 tx1 row heq1 x2 txa heq2 x1 txb heq3 x0 tx4 out2 heq4
              cases h
              obtain ⟨hrow, hpi1, hpu1, hmv1, hpr1⟩ := createItem_ok_fields _ _ _ _ _ heq1
              obtain ⟨hpr2, hpi2, hpu2, hmv2⟩ := incrementStockWithTx_ok_fields _ _ _ _ _ heq2
              obtain ⟨mvid, hmv3, hpi3, hpu3, hpr3⟩ := movementRepo_ok_fields _ _ _ _ heq3
              obtain ⟨hItems, hPurch, ⟨movs, hMov, hPair⟩, hSrc⟩ := ih (n + 3) _ _ _ heq4
              subst hrow
              refine ⟨?_, ?_, ?_, ?_⟩
              · rw [hItems, hpi3, hpi2, hpi1]
                simp
              · rw [hPurch, hpu3, hpu2, hpu1]
              · exact ⟨{ id := mvid, productID := item.productID, warehouseID := wid,
                         movementType := "purchase", quantity := item.quantity,
                         referenceType := nullableStr "purchase",
                         referenceID := nullableInt purchID,
                         createdBy := uid, notes := nullableStr "" } :: movs,
                       by rw [hMov, hmv3, hmv2, hmv1]; simp,
                       List.Forall₂.cons
                         ⟨rfl, rfl, rfl, by simp [nullableStr], rfl, rfl, rfl⟩ hPair⟩
              · exact List.Forall₂.cons ⟨rfl, rfl, rfl, rfl⟩ hSrc

/-- Claim C3: a committed CreatePurchase appends exactly the response
items to the items table and exactly one inventory movement per item,
paired in order: each movement has type purchase, the same product id
and quantity as its item, and references the new purchase id. -/
theorem createPurchase_movement_pairing (f : Fault) (s : DBState)
    (req : CreatePurchaseRequest) (u : Int) (p : Purchase)
    (hok : (CreatePurchase f s req u).1 = .ok p)
    (hpid : s.nextPurchaseID ≠ 0) :
    (CreatePurchase f s req u).2.purchaseItems = s.purchaseItems ++ p.items ∧
    ∃ movs, (CreatePurchase f s req u).2.movements = s.movements ++ movs ∧
      List.Forall₂ (fun (it : PurchaseItem) (mv : MovementRow) =>
        mv.movementType = "purchase" ∧ mv.productID = it.productID ∧
        mv.quantity = it.quantity ∧ mv.referenceType = some "purchase" ∧
        mv.referenceID = some p.id) p.items movs := by
  obtain ⟨hv, hid, hwid, hcb, hproc⟩ := createPurchase_ok_shape f s req u p hok
  obtain ⟨hItems, hPurch, ⟨movs, hMov, hPair⟩, hSrc⟩ :=
    processItems_rows f s.nextPurchaseID req.warehouseID u req.items _ _ _ _ hproc
  constructor
  · rw [hItems]
    rfl
  · refine ⟨movs, ?_, ?_⟩
    · rw [hMov]
      rfl
    · have href : nullableInt s.nextPurchaseID = some p.id := by
        rw [hid]
        unfold nullableInt
        rw [if_neg hpid]
      refine List.Forall₂.imp ?_ hPair
      intro a b hab
      obtain ⟨h1, h2, h3, h4, h5, _, _⟩ := hab
      exact ⟨h1, h2, h3, h4, by rw [h5, href]⟩

/-- Witness for C3: scenario 1 of the spec - one committed item yields
one matching movement row referencing purchase 1. -/
theorem createPurchase_movement_pairing_witness :
    (CreatePurchase noFault stateA reqA 9).2.purchaseItems =
      stateA.purchaseItems ++ purchA.items ∧
    ∃ movs, (CreatePurchase noFault stateA reqA 9).2.movements =
      stateA.movements ++ movs ∧
      List.Forall₂ (fun (it : PurchaseItem) (mv : MovementRow) =>
        mv.movementType = "purchase" ∧ mv.productID = it.productID ∧
        mv.quantity = it.quantity ∧ mv.referenceType = some "purchase" ∧
        mv.referenceID = some purchA.id) purchA.items movs :=
  createPurchase_movement_pairing noFault stateA reqA 9 purchA (by decide) (by decide)

/-- Pointwise consequences of an ordered pairing, pushed to the right
list, remembering membership on the left. -/
theorem forall₂_right_mem {α β : Type} {R : α → β → Prop} (P : β → Prop) :
    ∀ {xs : List α} {ys : List β}, List.Forall₂ R xs ys →
      (∀ a b, a ∈ xs → R a b → P b) → ∀ b ∈ ys, P b := by
  intro xs ys h
  induction h with
  | nil => intro _ b hb; cases hb
  | cons hab hrest ih =>
      intro hR b hb
      rcases List.mem_cons.mp hb with rfl | hb2
      · exact hR _ _ (List.mem_cons_self _ _) hab
      · exact ih (fun a b2 ha hr => hR a b2 (List.mem_cons_of_mem _ ha) hr) b hb2

/-- Claim C8 counterexample: a committed purchase whose single item
carries unit price minus five - neither the service validation nor the
purchase_items table constrains the unit price, so a persisted
PurchaseItem can have a negative unit price. -/
theorem negative_unit_price_persisted :
    (CreatePurchase noFault stateA reqNegPrice 9).1 =
      .ok { id := 1, warehouseID := 1, createdBy := 9,
            items := [{ id := 1, purchaseID := 1, productID := 5, quantity := 1,
                        unitPrice := some (-5) }] } ∧
    (CreatePurchase noFault stateA reqNegPrice 9).2.purchaseItems =
      [{ id := 1, purchaseID := 1, productID := 5, quantity := 1, unitPrice := some (-5) }] ∧
    ¬ (0 : Int) ≤ -5 :=
  ⟨by decide, by decide, by decide⟩

/-- Claim C8 (amended): every persisted PurchaseItem has positive
quantity - CreatePurchase preserves this table invariant, since
validation guards every insert - but unit prices are not constrained: a
present unit price may be negative and is persisted as given. -/
theorem purchase_items_positive_quantity_invariant (f : Fault) (s : DBState)
    (req : CreatePurchaseRequest) (u : Int)
    (hw : ∀ it ∈ s.purchaseItems, 0 < it.quantity) :
    ∀ it ∈ (CreatePurchase f s req u).2.purchaseItems, 0 < it.quantity := by
  rcases createPurchase_cases f s req u with ⟨p, s2, hc⟩ | ⟨e, hc⟩
  · have hok : (CreatePurchase f s req u).1 = .ok p := by rw [hc]
    obtain ⟨hv, hid, hwid, hcb, hproc⟩ := createPurchase_ok_shape f s req u p hok
    obtain ⟨hItems, _, _, hSrc⟩ :=
      processItems_rows f s.nextPurchaseID req.warehouseID u req.items _ _ _ _ hproc
    have hqreq := validate_none_pos hv
    intro it hit
    rw [hItems] at hit
    have hins : (insertPurchaseRow s req.warehouseID u).purchaseItems = s.purchaseItems := rfl
    rw [hins] at hit
    rcases List.mem_append.mp hit with h1 | h2
    · exact hw it h1
    · refine forall₂_right_mem (fun b => 0 < b.quantity) hSrc ?_ it h2
      intro a b ha hab
      obtain ⟨_, _, h3, _⟩ := hab
      rw [h3]
      exact hqreq a ha
  · intro it hit
    rw [hc] at hit
    exact hw it hit

/-- Witness for the amended C8: after a committed run every stored item
still has positive quantity. -/
theorem purchase_items_positive_quantity_invariant_witness :
    ((CreatePurchase noFault stateA reqA 9).2.purchaseItems.all
      (fun it => decide (0 < it.quantity))) = true := by
  have h := purchase_items_positive_quantity_invariant noFault stateA reqA 9 (by decide)
  rw [List.all_eq_true]
  intro it hit
  simpa using h it hit

/-- The pre-transaction product loop, when its reads reach the
database, reports exactly the first item whose product is missing. -/
theorem checkProducts_spec (f : Fault) (s : DBState) :
    ∀ (items : List PurchaseItem) (n : Nat),
      (∀ k, n ≤ k → k < n + items.length → f k = none) →
      checkProducts f s n items =
        (firstMissingProduct s items).map (fun pid => .productNotFoundWithID pid) := by
  intro items
  induction items with
  | nil => intro n hf; simp [checkProducts, firstMissingProduct]
  | cons item rest ih =>
      intro n hf
      have hfn : f n = none := hf n (Nat.le_refl n) (by simp)
      unfold checkProducts
      rw [hfn]
      simp only [productRepoExistsByID]
      unfold firstMissingProduct
      rw [List.find?_cons]
      by_cases hex : productExistsState s item.productID
      · simp only [hex, Bool.not_true, if_true]
        refine ih (n + 1) ?_
        intro k h1 h2
        exact hf k (by omega) (by simp only [List.length_cons]; omega)
      · have hex2 : productExistsState s item.productID = false := by
          simpa using hex
        simp only [hex2]
        rfl

/-- Claim C5: with the item list valid and the pre-transaction reads
reaching the database, CreatePurchase checks the warehouse first and
then every product of the request before the transaction: a missing
warehouse yields the warehouse-not-found sentinel, a missing product
yields the product-not-found error naming the first missing product id;
in both cases the state is returned unchanged, so nothing was written
and no transaction work is observable. -/
theorem createPurchase_existence_checks (f : Fault) (s : DBState)
    (req : CreatePurchaseRequest) (u : Int)
    (hv : ValidatePurchaseItems req.items = none)
    (hf : ∀ k, k ≤ req.items.length → f k = none) :
    (warehouseExistsState s req.warehouseID = false →
      CreatePurchase f s req u = (.error .errWarehouseNotFound, s)) ∧
    (∀ pid, warehouseExistsState s req.warehouseID = true →
      firstMissingProduct s req.items = some pid →
      CreatePurchase f s req u = (.error (.productNotFoundWithID pid), s) ∧
      errMsg (.productNotFoundWithID pid) = "product not found: product_id=" ++ toString pid) := by
  have hf0 : f 0 = none := hf 0 (Nat.zero_le _)
  constructor
  · intro hw
    simp [CreatePurchase, hv, hf0, warehouseRepoExistsByID, hw]
  · intro pid hw hmiss
    have hcheck : checkProducts f s 1 req.items = some (.productNotFoundWithID pid) := by
      rw [checkProducts_spec f s req.items 1 (fun k h1 h2 => hf k (by omega)), hmiss]
      rfl
    refine ⟨?_, rfl⟩
    simp [CreatePurchase, hv, hf0, warehouseRepoExistsByID, hw, hcheck]

/-- Witness for C5: scenario 4 of the spec - product 42 missing in the
second line fails the whole request, naming product 42, with no writes
(product 5 is not partially applied). -/
theorem createPurchase_existence_checks_witness :
    CreatePurchase noFault stateA reqMissingProd 9 =
      (.error (.productNotFoundWithID 42), stateA) ∧
    errMsg (.productNotFoundWithID 42) =
      "product not found: product_id=" ++ toString (42 : Int) :=
  (createPurchase_existence_checks noFault stateA reqMissingProd 9 (by decide)
    (fun k _ => rfl)).2 42 (by decide) (by decide)

/-- Claim C7: the modelled atomic stock increment commutes - two
purchases of the same product with quantities d1 and d2 give the same
state in either order, and the stock read back is the initial stock
plus d1 plus d2, never the maximum or a single delta. -/
theorem incrementStock_commutes (s : DBState) (pid d1 d2 : Int) :
    incrementStock (incrementStock s pid d1) pid d2 =
      incrementStock (incrementStock s pid d2) pid d1 ∧
    stockOf (incrementStock (incrementStock s pid d1) pid d2) pid =
      (stockOf s pid).map (fun x => x + (d1 + d2)) := by
  constructor
  · unfold incrementStock incProducts
    simp only [List.map_map]
    congr 1
    refine List.map_congr_left ?_
    intro p _
    by_cases h : p.id = pid <;> simp [Function.comp, h]
    omega
  · have hsum : sumQty [({ productID := pid, quantity := d1 } : PurchaseItem),
        { productID := pid, quantity := d2 }] pid = d1 + d2 := by
      simp [sumQty]
    have happ := stockOf_applyItems
      [({ productID := pid, quantity := d1 } : PurchaseItem),
        { productID := pid, quantity := d2 }] s.products pid
    rw [hsum] at happ
    cases hf : s.products.find? (fun p => p.id == pid) with
    | none =>
        rw [hf] at happ
        unfold stockOf
        exact happ.trans (by simp [hf])
    | some p =>
        rw [hf] at happ
        unfold stockOf
        refine happ.trans ?_
        simp [hf]


/-- Validation produces only its two sentinel errors. -/
theorem validate_some_shape {its : List PurchaseItem} {e : GoErr}
    (h : ValidatePurchaseItems its = some e) :
    e = .errEmptyPurchaseItems ∨ e = .errInvalidQuantity := by
  unfold ValidatePurchaseItems at h
  by_cases h0 : its.length = 0
  · rw [if_pos h0] at h
    exact Or.inl (Option.some.inj h).symm
  · rw [if_neg h0] at h
    exact Or.inr (findInvalidQty_eq_invalid h)

/-- The product-existence loop produces either a wrapped read fault or
the product-not-found error naming a product id. -/
theorem checkProducts_some_shape (f : Fault) (s : DBState) :
    ∀ (items : List PurchaseItem) (n : Nat) (e : GoErr),
      checkProducts f s n items = some e →
      (∃ e2, e = .wrapped "failed to check product: " e2) ∨
      (∃ pid, e = .productNotFoundWithID pid) := by
  intro items
  induction items with
  | nil => intro n e h; simp [checkProducts] at h
  | cons item rest ih =>
      intro n e h
      unfold checkProducts at h
      cases hfn : f n with
      | some m =>
          rw [hfn] at h
          simp only [productRepoExistsByID] at h
          exact Or.inl ⟨.base m, (Option.some.inj h).symm⟩
      | none =>
          rw [hfn] at h
          simp only [productRepoExistsByID] at h
          by_cases hex : productExistsState s item.productID
          · rw [if_pos hex] at h
            exact ih (n + 1) e h
          · rw [if_neg hex] at h
            exact Or.inr ⟨item.productID, (Option.some.inj h).symm⟩

/-- Every error the per-item loop returns is a service wrap whose
prefix names the failing step and is at least 17 bytes long. -/
theorem processItems_error_shape (f : Fault) (purchID wid uid : Int) :
    ∀ (items : List PurchaseItem) (n : Nat) (tx : DBState) (e : GoErr),
      processItems f purchID wid uid n tx items = .error e →
      ∃ pre inner, e = .wrapped pre inner ∧ 17 ≤ pre.length := by
  intro items
  induction items with
  | nil => intro n tx e h; simp [processItems] at h
  | cons item rest ih =>
      intro n tx e h
      unfold processItems at h
      split at h
      · rename_i e2 heq
        exact ⟨"failed to create purchase item: ", e2, (Except.error.inj h).symm, by decide⟩
      · split at h
        · rename_i e2 heq
          exact ⟨"failed to increment stock: ", e2, (Except.error.inj h).symm, by decide⟩
        · split at h
          · rename_i e2 heq
            exact ⟨"failed to create inventory movement: ", e2,
              (Except.error.inj h).symm, by decide⟩
          · split at h
            · rename_i e2 heq
              cases h
              exact ih (n + 3) _ _ heq
            · cases h

/-- Every error CreatePurchase returns is one of the three sentinel
errors, the product-not-found wrap naming a product id, or a wrap whose
prefix is at least 17 bytes long. -/
theorem createPurchase_error_shape (f : Fault) (s : DBState)
    (req : CreatePurchaseRequest) (u : Int) (e : GoErr)
    (h : (CreatePurchase f s req u).1 = .error e) :
    e = .errEmptyPurchaseItems ∨ e = .errInvalidQuantity ∨ e = .errWarehouseNotFound ∨
    (∃ pid, e = .productNotFoundWithID pid) ∨
    (∃ pre inner, e = .wrapped pre inner ∧ 17 ≤ pre.length) := by
  rcases hcp : CreatePurchase f s req u with ⟨r, s2⟩
  rw [hcp] at h
  obtain rfl : r = .error e := h
  unfold CreatePurchase at hcp
  split at hcp
  · rename_i heq
    cases hcp
    rcases validate_some_shape heq with h1 | h1
    · exact Or.inl h1
    · exact Or.inr (Or.inl h1)
  · split at hcp
    · cases hcp
      exact Or.inr (Or.inr (Or.inr (Or.inr ⟨_, _, rfl, by decide⟩)))
    · split at hcp
      · cases hcp
        exact Or.inr (Or.inr (Or.inl rfl))
      · split at hcp
        · rename_i heq
          cases hcp
          rcases checkProducts_some_shape f s req.items 1 _ heq with ⟨e2, rfl⟩ | ⟨pid, rfl⟩
          · exact Or.inr (Or.inr (Or.inr (Or.inr ⟨_, _, rfl, by decide⟩)))
          · exact Or.inr (Or.inr (Or.inr (Or.inl ⟨pid, rfl⟩)))
        · split at hcp
          · cases hcp
            exact Or.inr (Or.inr (Or.inr (Or.inr ⟨_, _, rfl, by decide⟩)))
          · split at hcp
            · cases hcp
              exact Or.inr (Or.inr (Or.inr (Or.inr ⟨_, _, rfl, by decide⟩)))
            · split at hcp
              · rename_i heq
                cases hcp
                obtain ⟨pre, inner, hshape, hlen⟩ := processItems_error_shape f _
                  req.warehouseID u req.items _ _ _ heq
                exact Or.inr (Or.inr (Or.inr (Or.inr ⟨pre, inner, hshape, hlen⟩)))
              · split at hcp
                · cases hcp
                  exact Or.inr (Or.inr (Or.inr (Or.inr ⟨_, _, rfl, by decide⟩)))
                · cases hcp

/-- errors.Is matching is reflexive. -/
theorem errIs_self : ∀ e : GoErr, errIs e e = true := by
  intro e
  cases e <;> simp [errIs]

/-- A wrap is never equal to the error it wraps. -/
theorem wrapped_ne (inner : GoErr) : ∀ pre, GoErr.wrapped pre inner ≠ inner := by
  induction inner with
  | wrapped p2 i2 ih =>
      intro pre h
      injection h with h1 h2
      exact ih p2 h2
  | errWarehouseNotFound => intro pre h; cases h
  | errProductNotFound => intro pre h; cases h
  | errInvalidQuantity => intro pre h; cases h
  | errEmptyPurchaseItems => intro pre h; cases h
  | base m => intro pre h; cases h
  | productNotFoundWithID pid => intro pre h; cases h

/-- Any error of the shape CreatePurchase can return renders to at
least 17 bytes. -/
theorem errMsg_len_ge (e : GoErr)
    (h : e = .errEmptyPurchaseItems ∨ e = .errInvalidQuantity ∨ e = .errWarehouseNotFound ∨
      (∃ pid, e = .productNotFoundWithID pid) ∨
      (∃ pre inner, e = .wrapped pre inner ∧ 17 ≤ pre.length)) :
    17 ≤ (errMsg e).length := by
  rcases h with rfl | rfl | rfl | ⟨pid, rfl⟩ | ⟨pre, inner, rfl, hlen⟩
  · decide
  · decide
  · decide
  · unfold errMsg
    rw [String.length_append]
    have h30 : ("product not found: product_id=").length = 30 := by decide
    omega
  · unfold errMsg
    rw [String.length_append]
    omega

/-- The handler error switch never reaches the out-of-bounds slice when
the message has at least 17 bytes. -/
theorem mapCreatePurchaseErr_ne_none (e : GoErr) (hlen : 17 ≤ (errMsg e).length) :
    mapCreatePurchaseErr e ≠ none := by
  unfold mapCreatePurchaseErr
  have hs : sliceTo17 (errMsg e) = some ((errMsg e).take 17) := by
    unfold sliceTo17
    rw [if_pos hlen]
  rw [hs]
  split
  · simp
  · split
    · simp
    · split
      · rename_i heqx
        cases heqx
      · split
        · simp
        · split
          · simp
          · split <;> simp

/-- Claim C9: every error value CreatePurchase can return renders to at
least 17 bytes, so the error switch of the HTTP handler - which slices
the first 17 bytes of the message in its product-not-found case - never
indexes out of bounds and never panics. -/
theorem createPurchase_error_message_at_least_17 (f : Fault) (s : DBState)
    (req : CreatePurchaseRequest) (u : Int) (e : GoErr)
    (h : (CreatePurchase f s req u).1 = .error e) :
    17 ≤ (errMsg e).length ∧ mapCreatePurchaseErr e ≠ none := by
  have hlen := errMsg_len_ge e (createPurchase_error_shape f s req u e h)
  exact ⟨hlen, mapCreatePurchaseErr_ne_none e hlen⟩

/-- Witness for C9: the shortest-path failure (empty item list) still
has a 27-byte message and maps to a response. -/
theorem createPurchase_error_message_at_least_17_witness :
    17 ≤ (errMsg .errEmptyPurchaseItems).length ∧
    mapCreatePurchaseErr .errEmptyPurchaseItems ≠ none :=
  createPurchase_error_message_at_least_17 noFault stateA
    { warehouseID := 1, items := [] } 9 .errEmptyPurchaseItems (by decide)

/-- Claim C6 counterexample: when the header insert fails with the
driver error boom, the repository wraps it once and the coordinator
wraps it again; the returned error equals neither the error the
repository step produced nor the underlying driver error, so the error
is not propagated unmodified. -/
theorem createPurchase_wraps_inner_error :
    (CreatePurchase faultAtHeader stateA reqA 9).1 =
      .error (.wrapped "failed to create purchase: "
        (.wrapped "failed to create purchase: " (.base "boom"))) ∧
    GoErr.wrapped "failed to create purchase: "
        (.wrapped "failed to create purchase: " (.base "boom")) ≠
      .wrapped "failed to create purchase: " (.base "boom") ∧
    GoErr.wrapped "failed to create purchase: "
        (.wrapped "failed to create purchase: " (.base "boom")) ≠ .base "boom" :=
  ⟨by decide, by decide, by decide⟩

/-- Claim C6 (amended): on any failing run the coordinator rolls back
before propagating, and the returned error is either one of the
service's own sentinel or product-not-found errors - returned as such -
or an inner step error wrapped with a step-identifying prefix: the wrap
still matches the inner error in the errors.Is sense, no error is
swallowed, but the value is not the inner error unmodified. -/
theorem createPurchase_error_wrap_and_rollback (f : Fault) (s : DBState)
    (req : CreatePurchaseRequest) (u : Int) (e : GoErr)
    (h : (CreatePurchase f s req u).1 = .error e) :
    (CreatePurchase f s req u).2 = s ∧
    (e = .errEmptyPurchaseItems ∨ e = .errInvalidQuantity ∨ e = .errWarehouseNotFound ∨
     (∃ pid, e = .productNotFoundWithID pid) ∨
     (∃ pre inner, e = .wrapped pre inner ∧ errIs e inner = true ∧ e ≠ inner)) := by
  constructor
  · rcases createPurchase_cases f s req u with ⟨p, s2, hc⟩ | ⟨e2, hc⟩
    · rw [hc] at h; simp at h
    · rw [hc]
  · rcases createPurchase_error_shape f s req u e h with h1 | h1 | h1 | h1 | ⟨pre, inner, rfl, hlen⟩
    · exact Or.inl h1
    · exact Or.inr (Or.inl h1)
    · exact Or.inr (Or.inr (Or.inl h1))
    · exact Or.inr (Or.inr (Or.inr (Or.inl h1)))
    · refine Or.inr (Or.inr (Or.inr (Or.inr
        ⟨pre, inner, rfl, ?_, wrapped_ne inner pre⟩)))
      simp [errIs, errIs_self]

/-- Witness for the amended C6: the header-insert failure rolls back
and comes out wrapped. -/
theorem createPurchase_error_wrap_and_rollback_witness :
    (CreatePurchase faultAtHeader stateA reqA 9).2 = stateA ∧
    ((GoErr.wrapped "failed to create purchase: "
        (.wrapped "failed to create purchase: " (.base "boom"))) = .errEmptyPurchaseItems ∨
     (GoErr.wrapped "failed to create purchase: "
        (.wrapped "failed to create purchase: " (.base "boom"))) = .errInvalidQuantity ∨
     (GoErr.wrapped "failed to create purchase: "
        (.wrapped "failed to create purchase: " (.base "boom"))) = .errWarehouseNotFound ∨
     (∃ pid, (GoErr.wrapped "failed to create purchase: "
        (.wrapped "failed to create purchase: " (.base "boom"))) =
          .productNotFoundWithID pid) ∨
     (∃ pre inner, (GoErr.wrapped "failed to create purchase: "
        (.wrapped "failed to create purchase: " (.base "boom"))) = .wrapped pre inner ∧
        errIs (GoErr.wrapped "failed to create purchase: "
          (.wrapped "failed to create purchase: " (.base "boom"))) inner = true ∧
        (GoErr.wrapped "failed to create purchase: "
          (.wrapped "failed to create purchase: " (.base "boom"))) ≠ inner)) :=
  createPurchase_error_wrap_and_rollback faultAtHeader stateA reqA 9
    (.wrapped "failed to create purchase: "
      (.wrapped "failed to create purchase: " (.base "boom"))) (by decide)


/-- Claim C10: whenever the single-purchase read returns any error -
the row being absent or a storage or scan fault on the header or item
reads - the GET handler answers 404 with the purchase-not-found body;
no error of this path is surfaced as a 500. -/
theorem getPurchase_handler_maps_errors_to_404 (f : Fault) (s : DBState)
    (idStr : String) (id : Int) (e : GoErr)
    (hid : atoi idStr = some id)
    (he : serviceGetPurchase f s id = .error e) :
    handleGetPurchase f s idStr =
      { status := 404, body := "\x7b\"error\":\"purchase not found\"\x7d" } := by
  have hne : idStr ≠ "" := by
    intro h0
    rw [h0] at hid
    simp [atoi] at hid
  unfold handleGetPurchase
  rw [if_neg hne]
  simp [hid, he]

/-- Witness for C10: id 12 does not exist in stateA; the repository
error surfaces as 404 purchase not found. -/
theorem getPurchase_handler_maps_errors_to_404_witness :
    handleGetPurchase noFault stateA "12" =
      { status := 404, body := "\x7b\"error\":\"purchase not found\"\x7d" } :=
  getPurchase_handler_maps_errors_to_404 noFault stateA "12" 12
    (.base "purchase not found") (by decide) (by decide)

/-- Claim C4 counterexample: the invalid-quantity error is one fixed
sentinel whatever the offending product is - requests offending with
product 7 and with product 9 produce the same error value, whose
message contains no digit at all - so the error cannot indicate the
offending product id. -/
theorem invalid_quantity_error_lacks_product_id :
    ValidatePurchaseItems [{ productID := 7, quantity := 0 }] = some .errInvalidQuantity ∧
    ValidatePurchaseItems [{ productID := 9, quantity := 0 }] = some .errInvalidQuantity ∧
    (∀ c ∈ (errMsg .errInvalidQuantity).data, ¬ c.isDigit) :=
  ⟨by decide, by decide, by decide⟩

/-- Claim C4 (amended): validation runs before any repository or
database access and has no side effects; it fails with the empty-items
error exactly when the item list is empty and with the invalid-quantity
error - a fixed sentinel that does not identify the offending product -
exactly when some item has quantity at most zero; on such a request
CreatePurchase returns that very error with the state unchanged, so no
database write of any kind occurs. -/
theorem validate_failfast_amended (f : Fault) (s : DBState) (req : CreatePurchaseRequest)
    (u : Int) :
    (ValidatePurchaseItems req.items = some .errEmptyPurchaseItems ↔ req.items = []) ∧
    (ValidatePurchaseItems req.items = some .errInvalidQuantity ↔
      ∃ it ∈ req.items, it.quantity ≤ 0) ∧
    (∀ e, ValidatePurchaseItems req.items = some e →
      CreatePurchase f s req u = (.error e, s)) := by
  refine ⟨?_, ?_, ?_⟩
  · constructor
    · intro h
      unfold ValidatePurchaseItems at h
      by_cases h0 : req.items.length = 0
      · exact List.length_eq_zero.mp h0
      · rw [if_neg h0] at h
        cases findInvalidQty_eq_invalid h
    · intro h; rw [ValidatePurchaseItems, h]; rfl
  · unfold ValidatePurchaseItems
    by_cases h0 : req.items.length = 0
    · rw [if_pos h0]
      have : req.items = [] := List.length_eq_zero.mp h0
      rw [this]
      simp
    · rw [if_neg h0]
      exact findInvalidQty_some_iff req.items
  · intro e h
    simp [CreatePurchase, h]

/-- Witness for the amended C4: a request whose single item has
quantity zero is rejected with the sentinel and writes nothing. -/
theorem validate_failfast_amended_witness :
    ValidatePurchaseItems [({ productID := 7, quantity := 0 } : PurchaseItem)] =
      some .errInvalidQuantity ∧
    CreatePurchase noFault stateA
      { warehouseID := 1, items := [{ productID := 7, quantity := 0 }] } 9 =
      (.error .errInvalidQuantity, stateA) :=
  ⟨by decide,
    (validate_failfast_amended noFault stateA
      { warehouseID := 1, items := [{ productID := 7, quantity := 0 }] } 9).2.2
      .errInvalidQuantity (by decide)⟩

end InventoryBackend
